import Mathlib

/-!
# term_ansi — verification of the style-context stack and color conversions

Shallow embedding of the `term_ansi` Rust crate (src/src/lib.rs).

* The thread-local `COLOR_CONTEXT : Vec<String>` becomes an explicit
  `List String` threaded through the operations, with the top of the stack
  at the END of the list (mirroring `Vec::push` / `Vec::pop` / `last()`).
* The `apply_color!` macro becomes a recursive render function over a small
  content language: literal text, concatenation (what `format!` does with a
  template and already-positioned arguments), a nested `apply_color!`
  invocation, and a failing/panicking rendering step.  A panic during
  `format!` is modelled as the `none` outcome: the expansion of the macro is
  straight-line code, so on a panic the trailing `ColorContext::pop()` is
  not reached and the state is returned as the failure left it.
* `hsl_to_rgb` / `hsv_to_rgb` operate on `f64`; they are embedded over `ℚ`
  with Rust's `%` (truncated fmod), `.round()` (half away from zero) and
  `as u8` (truncating and saturating) made explicit.  Every claim about
  them is settled at inputs where the `f64` computation is exact (the
  intermediate values are small dyadic-or-exact rationals, or the decisive
  subterm is an exact `0.0`), so the rational model agrees with the
  floating-point code at every input a theorem below touches.
-/

-- ## Definitions

/-- The sentinel entry the thread-local stack is initialised with:
`vec![String::from("\x1b[37m")]`. -/
def sentinelColor : String := "\x1b[37m"

/-- The initial state of `COLOR_CONTEXT`. -/
def initStack : List String := [sentinelColor]

namespace ColorContext

/-- `ColorContext::push`: `ctx.borrow_mut().push(color.to_string())`. -/
def push (st : List String) (color : String) : List String :=
  st ++ [color]

/-- `ColorContext::pop`: `ctx.borrow_mut().pop()` — `Vec::pop` removes the
last element if there is one and does nothing on an empty vector. -/
def pop (st : List String) : List String :=
  st.dropLast

/-- `ColorContext::current_color`:
`ctx.borrow().last().cloned().unwrap_or_else(|| String::from("\x1b[37m"))`.
A pure, total function of the stack: it returns a value without touching
the stack and has no failure outcome. -/
def current_color (st : List String) : String :=
  st.getLast?.getD sentinelColor

end ColorContext

/-- `reset_all()` — returns `"\x1b[0m"`. -/
def reset_all : String := "\x1b[0m"

/-- The content handed to `apply_color!`: the format template with its
arguments.  `text` is a literal fragment, `seq` is the concatenation
`format!` performs, `styled` is a nested `apply_color!` call evaluated
inside the enclosing `format!`, and `fail` is an argument whose rendering
panics (a panicking `Display` impl inside `format!`). -/
inductive Content where
  | text (s : String) : Content
  | seq (a b : Content) : Content
  | styled (code : String) (c : Content) : Content
  | fail : Content

/-- One step of rendering, returning `some` output on success and `none` if
a panic unwinds out.  The `styled` case is the body of `apply_color!`:

```
$crate::ColorContext::push($color_code);
let result = format!("{}{}{}", $color_code, format!($($arg)*), $crate::reset_all());
$crate::ColorContext::pop();
format!("{}{}", result, $crate::ColorContext::current_color())
```

The push happens first; if rendering the inner `format!` panics, the
straight-line expansion never reaches the pop, so the state is propagated
as the failing render left it. -/
def renderContent : Content → List String → Option String × List String
  | .text s, st => (some s, st)
  | .seq a b, st =>
      match renderContent a st with
      | (none, st1) => (none, st1)
      | (some ra, st1) =>
          match renderContent b st1 with
          | (none, st2) => (none, st2)
          | (some rb, st2) => (some (ra ++ rb), st2)
  | .styled code c, st =>
      let st1 := ColorContext.push st code
      match renderContent c st1 with
      | (none, st2) => (none, st2)
      | (some inner, st2) =>
          let st3 := ColorContext.pop st2
          (some (code ++ inner ++ reset_all ++ ColorContext.current_color st3), st3)
  | .fail, st => (none, st)

/-- `apply_color!(code, args...)` as a function of the pre-call stack. -/
def apply_color (code : String) (c : Content) (st : List String) :
    Option String × List String :=
  renderContent (.styled code c) st

/-- `true` iff no rendering step of the content can panic. -/
def renders_ok : Content → Bool
  | .text _ => true
  | .seq a b => renders_ok a && renders_ok b
  | .styled _ c => renders_ok c
  | .fail => false

/-- A sequence of top-level `apply_color!` calls executed one after the
other against the same thread-local stack. -/
def runCalls : List (String × Content) → List String → List String
  | [], st => st
  | (code, c) :: rest, st => runCalls rest (apply_color code c st).2

/-- Floor of a rational as an integer. -/
def floorQ (q : ℚ) : ℤ := ⌊q⌋

/-- Ceiling of a rational as an integer. -/
def ceilQ (q : ℚ) : ℤ := ⌈q⌉

/-- Truncation toward zero, as Rust float-to-int conversion does. -/
def truncQ (q : ℚ) : ℤ := if 0 ≤ q then floorQ q else ceilQ q

/-- Rust's `%` on `f64`: `a - b * trunc(a / b)` (result has the sign of the
dividend). -/
def fmodQ (a b : ℚ) : ℚ := a - b * (truncQ (a / b) : ℚ)

/-- Rust's `f64::round`: round half away from zero. -/
def roundQ (q : ℚ) : ℤ :=
  if 0 ≤ q then floorQ (q + 1/2) else ceilQ (q - 1/2)

/-- Rust's `as u8` applied to an integral float: truncate (the identity on
integral values) and saturate to `[0, 255]`. -/
def toU8 (z : ℤ) : ℕ := (max 0 (min 255 z)).toNat

/-- `hsl_to_rgb(h, s, l)` from src/src/lib.rs, with the six guarded match
arms in source order and the catch-all `(0.0, 0.0, 0.0)`. -/
def hsl_to_rgb (h s l : ℚ) : ℕ × ℕ × ℕ :=
  let c : ℚ := (1 - |2 * l - 1|) * s
  let x : ℚ := c * (1 - |fmodQ (h / 60) 2 - 1|)
  let m : ℚ := l - c / 2
  let rgb : ℚ × ℚ × ℚ :=
    if 0 ≤ h ∧ h < 60 then (c, x, 0)
    else if 60 ≤ h ∧ h < 120 then (x, c, 0)
    else if 120 ≤ h ∧ h < 180 then (0, c, x)
    else if 180 ≤ h ∧ h < 240 then (0, x, c)
    else if 240 ≤ h ∧ h < 300 then (x, 0, c)
    else if 300 ≤ h ∧ h ≤ 360 then (c, 0, x)
    else (0, 0, 0)
  (toU8 (roundQ ((rgb.1 + m) * 255)),
   toU8 (roundQ ((rgb.2.1 + m) * 255)),
   toU8 (roundQ ((rgb.2.2 + m) * 255)))

/-- `hsv_to_rgb(h, s, v)` from src/src/lib.rs. -/
def hsv_to_rgb (h s v : ℚ) : ℕ × ℕ × ℕ :=
  let c : ℚ := v * s
  let x : ℚ := c * (1 - |fmodQ (h / 60) 2 - 1|)
  let m : ℚ := v - c
  let rgb : ℚ × ℚ × ℚ :=
    if 0 ≤ h ∧ h < 60 then (c, x, 0)
    else if 60 ≤ h ∧ h < 120 then (x, c, 0)
    else if 120 ≤ h ∧ h < 180 then (0, c, x)
    else if 180 ≤ h ∧ h < 240 then (0, x, c)
    else if 240 ≤ h ∧ h < 300 then (x, 0, c)
    else if 300 ≤ h ∧ h ≤ 360 then (c, 0, x)
    else (0, 0, 0)
  (toU8 (roundQ ((rgb.1 + m) * 255)),
   toU8 (roundQ ((rgb.2.1 + m) * 255)),
   toU8 (roundQ ((rgb.2.2 + m) * 255)))

-- ## Helper lemmas

theorem pop_push (st : List String) (c : String) :
    ColorContext.pop (ColorContext.push st c) = st := by
  simp [ColorContext.pop, ColorContext.push]

theorem current_color_push (st : List String) (c : String) :
    ColorContext.current_color (ColorContext.push st c) = c := by
  simp [ColorContext.current_color, ColorContext.push]

/-- Rendering that returns normally restores the stack it started from. -/
theorem renderContent_stack_eq :
    ∀ (c : Content) (st : List String) (r : String) (st' : List String),
      renderContent c st = (some r, st') → st' = st := by
  intro c
  induction c with
  | text s =>
      intro st r st' h
      simp only [renderContent] at h
      cases h
      rfl
  | seq a b iha ihb =>
      intro st r st' h
      simp only [renderContent] at h
      split at h
      next => exact absurd h (by simp)
      next ra st1 heq =>
        split at h
        next => exact absurd h (by simp)
        next rb st2 heq2 =>
          cases h
          exact (ihb st1 rb _ heq2).trans (iha st ra st1 heq)
  | styled code c ih =>
      intro st r st' h
      simp only [renderContent] at h
      split at h
      next => exact absurd h (by simp)
      next inner st2 heq =>
        cases h
        rw [ih (ColorContext.push st code) inner _ heq, pop_push]
  | fail =>
      intro st r st' h
      simp [renderContent] at h

/-- Rendering a panic-free content succeeds and returns the stack
unchanged. -/
theorem renderContent_ok :
    ∀ (c : Content), renders_ok c = true → ∀ st : List String,
      ∃ r : String, renderContent c st = (some r, st) := by
  intro c
  induction c with
  | text s => intro _ st; exact ⟨s, rfl⟩
  | seq a b iha ihb =>
      intro hok st
      simp only [renders_ok, Bool.and_eq_true] at hok
      obtain ⟨ra, ha⟩ := iha hok.1 st
      obtain ⟨rb, hb⟩ := ihb hok.2 st
      exact ⟨ra ++ rb, by simp only [renderContent, ha, hb]⟩
  | styled code c ih =>
      intro hok st
      simp only [renders_ok] at hok
      obtain ⟨inner, hi⟩ := ih hok (ColorContext.push st code)
      refine ⟨code ++ inner ++ reset_all ++
        ColorContext.current_color (ColorContext.pop (ColorContext.push st code)), ?_⟩
      simp only [renderContent, hi, pop_push]
  | fail => intro hok; simp [renders_ok] at hok

-- ## Claims

/-- C1: with no nested styling, `apply_color!(c, s)` returns exactly
`c ++ s ++ "\x1b[0m" ++ t` where `t` is the pre-call top of the context
stack, and it leaves the stack as it found it. -/
theorem apply_color_no_nesting (code s t : String) (st : List String)
    (htop : st.getLast? = some t) :
    apply_color code (.text s) st
      = (some (code ++ s ++ reset_all ++ t), st) := by
  simp [apply_color, renderContent, pop_push, ColorContext.current_color, htop]

/-- C1 witness: from the initial sentinel stack, applying red to `"Hello"`
returns `"\x1b[31mHello\x1b[0m\x1b[37m"` (matching `test_simple_color`). -/
theorem apply_color_no_nesting_witness :
    initStack.getLast? = some "\x1b[37m" ∧
    apply_color "\x1b[31m" (.text "Hello") initStack
      = (some ("\x1b[31m" ++ "Hello" ++ reset_all ++ "\x1b[37m"), initStack) :=
  ⟨rfl, apply_color_no_nesting "\x1b[31m" "Hello" "\x1b[37m" initStack rfl⟩

/-- C2: rendering a c2-styled region inside a c1-styled region inside a
c0-styled region (started from the initial stack): the innermost region
closes with reset followed by `c1` — the immediately enclosing code, not
`c0` and not the sentinel — then the c1 region closes restoring `c0`, and
the c0 region closes restoring the sentinel. -/
theorem apply_color_nested_restore (c0 c1 c2 s : String) :
    apply_color c0 (.styled c1 (.styled c2 (.text s))) initStack
      = (some (c0 ++ (c1 ++ (c2 ++ s ++ reset_all ++ c1) ++ reset_all ++ c0)
                  ++ reset_all ++ sentinelColor),
         initStack) := by
  simp [apply_color, renderContent, ColorContext.push, ColorContext.pop,
        ColorContext.current_color, initStack]

/-- C3 counterexample: `ColorContext::pop` is `Vec::pop`; called on the
initial stack, which holds only the sentinel, it removes the sentinel and
leaves the stack empty — it is not a no-op there. -/
theorem pop_sentinel_not_noop :
    ColorContext.pop initStack = ([] : List String) ∧
    initStack ≠ ([] : List String) := by
  constructor
  · rfl
  · simp [initStack]

/-- C3 amended: `pop` removes the top entry unconditionally, even when only
the sentinel remains (so an unmatched `pop` can empty the stack); matched
push/pop pairs still restore the stack, and `current_color` masks an empty
stack by returning the sentinel default. -/
theorem pop_removes_top_unconditionally :
    ColorContext.pop initStack = ([] : List String) ∧
    ColorContext.current_color (ColorContext.pop initStack) = sentinelColor ∧
    (∀ (st : List String) (c : String),
        ColorContext.pop (ColorContext.push st c) = st) := by
  refine ⟨rfl, rfl, ?_⟩
  intro st c
  exact pop_push st c

/-- C4 counterexample: an out-of-range hue does not give black for every
saturation and lightness/value: at `h = 400`, `s = 0`, `l = v = 1` both
conversions return `(255, 255, 255)`. -/
theorem hue_out_of_range_not_black :
    hsl_to_rgb 400 0 1 = (255, 255, 255) ∧
    hsv_to_rgb 400 0 1 = (255, 255, 255) := by
  constructor <;>
    norm_num [hsl_to_rgb, hsv_to_rgb, fmodQ, truncQ, floorQ, ceilQ, roundQ, toU8] <;>
    decide

/-- C4 amended: for a hue outside `[0, 360]` no hue sector matches, the
chroma triple is `(0, 0, 0)`, and the result is the achromatic triple
determined by the offset `m` alone — `(round(255·m), ·, ·)` with
`m = l - c/2` for HSL and `m = v - c` for HSV.  No error is raised.  The
result is `(0, 0, 0)` only when `m` rounds to `0` (e.g. `s = 1`,
`l = 1/2`), not for every saturation and lightness/value. -/
theorem hue_out_of_range_achromatic (h s lv : ℚ) (hout : h < 0 ∨ 360 < h) :
    hsl_to_rgb h s lv =
      (toU8 (roundQ ((lv - (1 - |2 * lv - 1|) * s / 2) * 255)),
       toU8 (roundQ ((lv - (1 - |2 * lv - 1|) * s / 2) * 255)),
       toU8 (roundQ ((lv - (1 - |2 * lv - 1|) * s / 2) * 255))) ∧
    hsv_to_rgb h s lv =
      (toU8 (roundQ ((lv - lv * s) * 255)),
       toU8 (roundQ ((lv - lv * s) * 255)),
       toU8 (roundQ ((lv - lv * s) * 255))) := by
  have n1 : ¬(0 ≤ h ∧ h < 60) := by
    rintro ⟨a, b⟩; rcases hout with h' | h' <;> linarith
  have n2 : ¬(60 ≤ h ∧ h < 120) := by
    rintro ⟨a, b⟩; rcases hout with h' | h' <;> linarith
  have n3 : ¬(120 ≤ h ∧ h < 180) := by
    rintro ⟨a, b⟩; rcases hout with h' | h' <;> linarith
  have n4 : ¬(180 ≤ h ∧ h < 240) := by
    rintro ⟨a, b⟩; rcases hout with h' | h' <;> linarith
  have n5 : ¬(240 ≤ h ∧ h < 300) := by
    rintro ⟨a, b⟩; rcases hout with h' | h' <;> linarith
  have n6 : ¬(300 ≤ h ∧ h ≤ 360) := by
    rintro ⟨a, b⟩; rcases hout with h' | h' <;> linarith
  constructor <;> simp [hsl_to_rgb, hsv_to_rgb, n1, n2, n3, n4, n5, n6]

/-- C4 amended, witness at `h = 400`, `s = 0`, `l = v = 1`. -/
theorem hue_out_of_range_achromatic_witness :
    ((400 : ℚ) < 0 ∨ (360 : ℚ) < 400) ∧
    (hsl_to_rgb 400 0 1 =
      (toU8 (roundQ (((1 : ℚ) - (1 - |2 * (1 : ℚ) - 1|) * 0 / 2) * 255)),
       toU8 (roundQ (((1 : ℚ) - (1 - |2 * (1 : ℚ) - 1|) * 0 / 2) * 255)),
       toU8 (roundQ (((1 : ℚ) - (1 - |2 * (1 : ℚ) - 1|) * 0 / 2) * 255))) ∧
     hsv_to_rgb 400 0 1 =
      (toU8 (roundQ (((1 : ℚ) - 1 * 0) * 255)),
       toU8 (roundQ (((1 : ℚ) - 1 * 0) * 255)),
       toU8 (roundQ (((1 : ℚ) - 1 * 0) * 255)))) :=
  ⟨by norm_num, hue_out_of_range_achromatic 400 0 1 (by norm_num)⟩

/-- C5: a style application that returns normally leaves the context stack
exactly as it was before the call: its push is matched by exactly one pop
before the result is returned. -/
theorem apply_color_preserves_stack (code : String) (c : Content)
    (st : List String) (r : String) (st' : List String)
    (h : apply_color code c st = (some r, st')) : st' = st :=
  renderContent_stack_eq (.styled code c) st r st' h

/-- C5 witness: a concrete successful call from the initial stack returns
the initial stack. -/
theorem apply_color_preserves_stack_witness :
    apply_color "\x1b[31m" (.text "Hi") initStack
      = (some ("\x1b[31m" ++ "Hi" ++ reset_all ++ sentinelColor), initStack) ∧
    initStack = initStack :=
  ⟨rfl,
   apply_color_preserves_stack "\x1b[31m" (.text "Hi") initStack
     ("\x1b[31m" ++ "Hi" ++ reset_all ++ sentinelColor) initStack rfl⟩

/-- C6 counterexample: the expansion of `apply_color!` is straight-line
code with no drop guard, so when rendering the content panics the pop is
never executed: the call exits with the pushed code still on the stack,
which is no longer the pre-call stack. -/
theorem render_panic_leaks_stack :
    apply_color "\x1b[31m" .fail initStack
      = (none, initStack ++ ["\x1b[31m"]) ∧
    initStack ++ ["\x1b[31m"] ≠ initStack := by
  constructor
  · rfl
  · intro hcontra
    have := congrArg List.length hcontra
    simp [initStack] at this

/-- C6 amended: the pop runs only on the normal-return path; if rendering
the content panics, the straight-line expansion skips the pop and the
pushed code is left on the stack, so the pre-call stack is not restored. -/
theorem apply_color_panic_skips_pop (code : String) (st : List String) :
    apply_color code .fail st = (none, ColorContext.push st code) ∧
    ColorContext.push st code ≠ st := by
  constructor
  · rfl
  · intro hcontra
    have := congrArg List.length hcontra
    simp [ColorContext.push] at this

/-- C7: after any balanced sequence of `apply_color!` calls (possibly
nested) that render without failure, `current_color` returns the same
value it returned before the first call. -/
theorem balanced_calls_restore_current (calls : List (String × Content))
    (st : List String)
    (hok : ∀ p ∈ calls, renders_ok p.2 = true) :
    ColorContext.current_color (runCalls calls st)
      = ColorContext.current_color st := by
  induction calls generalizing st with
  | nil => rfl
  | cons p rest ih =>
      obtain ⟨code, c⟩ := p
      have hc : renders_ok c = true := hok (code, c) (List.mem_cons_self _ _)
      obtain ⟨inner, hi⟩ :=
        renderContent_ok c hc (ColorContext.push st code)
      have hstep : (apply_color code c st).2 = st := by
        simp only [apply_color, renderContent, hi, pop_push]
      rw [runCalls, hstep]
      exact ih st (fun q hq => hok q (List.mem_cons_of_mem _ hq))

/-- C7 witness: two sibling calls, the second itself nested, starting from
the initial stack. -/
theorem balanced_calls_restore_current_witness :
    (∀ p ∈ [("\x1b[31m", Content.text "a"),
            ("\x1b[32m", Content.styled "\x1b[34m" (Content.text "b"))],
        renders_ok p.2 = true) ∧
    ColorContext.current_color
        (runCalls [("\x1b[31m", Content.text "a"),
                   ("\x1b[32m", Content.styled "\x1b[34m" (Content.text "b"))]
          initStack)
      = ColorContext.current_color initStack :=
  ⟨by decide,
   balanced_calls_restore_current
     [("\x1b[31m", Content.text "a"),
      ("\x1b[32m", Content.styled "\x1b[34m" (Content.text "b"))]
     initStack (by decide)⟩

/-- C8: the conversions are exact at the canonical color points:
`hsl_to_rgb(0, 1, 0.5) = (255, 0, 0)`, `hsl_to_rgb(120, 1, 0.5) =
(0, 255, 0)`, `hsv_to_rgb(240, 1, 1) = (0, 0, 255)`. -/
theorem canonical_color_points :
    hsl_to_rgb 0 1 (1/2) = (255, 0, 0) ∧
    hsl_to_rgb 120 1 (1/2) = (0, 255, 0) ∧
    hsv_to_rgb 240 1 1 = (0, 0, 255) := by
  refine ⟨?_, ?_, ?_⟩ <;>
    norm_num [hsl_to_rgb, hsv_to_rgb, fmodQ, truncQ, floorQ, ceilQ, roundQ, toU8] <;>
    decide

/-- C9: `current_color` returns the entry at the top of the stack, and the
sentinel default `"\x1b[37m"` when the stack is empty; being a pure total
function of the stack, it neither fails nor modifies it. -/
theorem current_color_top_or_sentinel :
    (∀ (st : List String) (c : String),
        ColorContext.current_color (st ++ [c]) = c) ∧
    ColorContext.current_color [] = sentinelColor := by
  constructor
  · intro st c
    simp [ColorContext.current_color]
  · rfl

/-- C10: the two endpoints of the hue range agree: at `h = 0` and at
`h = 360` the interpolation term `x` is exactly `0` and the selected hue
sectors both yield the channel triple `(c, 0, 0)` before the offset is
added, so `hsl_to_rgb` and `hsv_to_rgb` coincide at `h = 360` and
`h = 0`. -/
theorem hue_endpoints_agree (s lv : ℚ) (hs0 : 0 ≤ s) (hs1 : s ≤ 1)
    (hl0 : 0 ≤ lv) (hl1 : lv ≤ 1) :
    hsl_to_rgb 360 s lv = hsl_to_rgb 0 s lv ∧
    hsv_to_rgb 360 s lv = hsv_to_rgb 0 s lv := by
  constructor <;>
    norm_num [hsl_to_rgb, hsv_to_rgb, fmodQ, truncQ, floorQ, ceilQ]

/-- C10 witness at `s = 1`, `l = v = 1/2`. -/
theorem hue_endpoints_agree_witness :
    ((0 : ℚ) ≤ 1 ∧ (1 : ℚ) ≤ 1 ∧ (0 : ℚ) ≤ 1/2 ∧ (1 : ℚ)/2 ≤ 1) ∧
    (hsl_to_rgb 360 1 (1/2) = hsl_to_rgb 0 1 (1/2) ∧
     hsv_to_rgb 360 1 (1/2) = hsv_to_rgb 0 1 (1/2)) :=
  ⟨by norm_num,
   hue_endpoints_agree 1 (1/2) (by norm_num) (by norm_num) (by norm_num)
     (by norm_num)⟩
